import Mathlib

/-!
# Verification of the cloudsql-autoscaler decision engine

A shallow embedding of the decision and scheduling core of the
`cloudsql-autoscaler` repository, together with proofs of the frozen claims
about it.  Translation conventions:

* Machine integers are `Nat`/`Int`.  Memory sizes (Go `float64` GB values) are
  kept in the exact unit 1/20480 GB (`memU`): every memory value the program
  manipulates — registry entries in 0.05 GB steps and custom sizes of the form
  `MB/1024` — is an integer in this unit, and every `float64` comparison or
  truncation the code performs is exact at this granularity (the reachable
  values are never close enough to a decision boundary for double rounding to
  change any branch, see the comments at the individual operations), so the
  integer model reproduces the floating-point behaviour.
* Metric samples and statistics are `ℚ`; durations are `Int` nanoseconds.
* Go's `(value, error)` returns become `Except`/`Option`; error *messages*
  are modelled by inductive error codes carrying the data interpolated into
  the Go format string.
* Go map iteration feeds only order-insensitive folds in this code base; maps
  are modelled as association lists in source order.
-/

namespace CloudSQLProof

/-! ## Machine-type catalog (`pkg/config/machine_types.go`) -/

/-- Machine series (`MachineType.Series`); the Go field is a string, modelled
as an enumeration of the values occurring in the program.  `unspecified`
is the zero value `""`. -/
inductive Series where
  | f1 | g1 | n1 | n2 | e2 | custom | perfOptimized | unspecified
  deriving DecidableEq, Repr

/-- Size tier (`MachineType.Tier`); `unspecified` is the zero value `""`. -/
inductive Tier where
  | micro | small | standard | highmem | performance | unspecified
  deriving DecidableEq, Repr

/-- `config.MachineType`.  `memU` is `MemoryGB` in units of 1/20480 GB
(so `memU = MemoryGB * 20480 = memoryMB * 20`), which represents every
memory value in the program exactly. -/
structure MachineType where
  name : String
  cpu : Nat
  memU : Nat
  series : Series
  tier : Tier
  deriving DecidableEq, Repr

/-- The zero value of the Go struct `MachineType`. -/
def MachineType.zero : MachineType :=
  { name := "", cpu := 0, memU := 0, series := .unspecified, tier := .unspecified }

/-- Error codes for the machine-type catalog, standing for the
`fmt.Errorf` messages in `machine_types.go`. -/
inductive MTErr where
  | notFound (name : String)
  | noLarger (name : String)
  | noSmaller (name : String)
  | notCustom
  | invalidCustomFormat
  | invalidCPUCount
  | invalidMemorySize
  | customCPUOutOfRange
  | customMemoryOutOfRange
  | notPerfOptimized
  | unknownPerfOptimized
  | atMaxCustom
  | atMinCustom
  | unknownPerfConfig
  | invalidPerfType
  | atMaxPerf
  | atMinPerf
  deriving DecidableEq, Repr

instance {e a : Type} [DecidableEq e] [DecidableEq a] : DecidableEq (Except e a) := fun x y =>
  match x, y with
  | .ok u, .ok v =>
      if h : u = v then isTrue (by rw [h]) else isFalse (by simp [h])
  | .error u, .error v =>
      if h : u = v then isTrue (by rw [h]) else isFalse (by simp [h])
  | .ok _, .error _ => isFalse (fun h => Except.noConfusion h)
  | .error _, .ok _ => isFalse (fun h => Except.noConfusion h)

/-- `MachineTypeRegistry`, in source order.  (Go stores it in a map; the
program only folds over it in order-insensitive ways, so a list in source
order is a faithful model.)  `memU` is GB·20480. -/
def MachineTypeRegistry : List (String × MachineType) := [
  ("db-f1-micro", ⟨"db-f1-micro", 1, 12288, .f1, .micro⟩),
  ("db-g1-small", ⟨"db-g1-small", 1, 34816, .g1, .small⟩),
  ("db-n1-standard-1", ⟨"db-n1-standard-1", 1, 76800, .n1, .standard⟩),
  ("db-n1-standard-2", ⟨"db-n1-standard-2", 2, 153600, .n1, .standard⟩),
  ("db-n1-standard-4", ⟨"db-n1-standard-4", 4, 307200, .n1, .standard⟩),
  ("db-n1-standard-8", ⟨"db-n1-standard-8", 8, 614400, .n1, .standard⟩),
  ("db-n1-standard-16", ⟨"db-n1-standard-16", 16, 1228800, .n1, .standard⟩),
  ("db-n1-standard-32", ⟨"db-n1-standard-32", 32, 2457600, .n1, .standard⟩),
  ("db-n1-standard-64", ⟨"db-n1-standard-64", 64, 4915200, .n1, .standard⟩),
  ("db-n1-standard-96", ⟨"db-n1-standard-96", 96, 7372800, .n1, .standard⟩),
  ("db-n1-highmem-2", ⟨"db-n1-highmem-2", 2, 266240, .n1, .highmem⟩),
  ("db-n1-highmem-4", ⟨"db-n1-highmem-4", 4, 532480, .n1, .highmem⟩),
  ("db-n1-highmem-8", ⟨"db-n1-highmem-8", 8, 1064960, .n1, .highmem⟩),
  ("db-n1-highmem-16", ⟨"db-n1-highmem-16", 16, 2129920, .n1, .highmem⟩),
  ("db-n1-highmem-32", ⟨"db-n1-highmem-32", 32, 4259840, .n1, .highmem⟩),
  ("db-n1-highmem-64", ⟨"db-n1-highmem-64", 64, 8519680, .n1, .highmem⟩),
  ("db-n1-highmem-96", ⟨"db-n1-highmem-96", 96, 12779520, .n1, .highmem⟩),
  ("db-n2-standard-2", ⟨"db-n2-standard-2", 2, 163840, .n2, .standard⟩),
  ("db-n2-standard-4", ⟨"db-n2-standard-4", 4, 327680, .n2, .standard⟩),
  ("db-n2-standard-8", ⟨"db-n2-standard-8", 8, 655360, .n2, .standard⟩),
  ("db-n2-standard-16", ⟨"db-n2-standard-16", 16, 1310720, .n2, .standard⟩),
  ("db-n2-standard-32", ⟨"db-n2-standard-32", 32, 2621440, .n2, .standard⟩),
  ("db-n2-standard-48", ⟨"db-n2-standard-48", 48, 3932160, .n2, .standard⟩),
  ("db-n2-standard-64", ⟨"db-n2-standard-64", 64, 5242880, .n2, .standard⟩),
  ("db-n2-standard-80", ⟨"db-n2-standard-80", 80, 6553600, .n2, .standard⟩),
  ("db-n2-standard-96", ⟨"db-n2-standard-96", 96, 7864320, .n2, .standard⟩),
  ("db-n2-standard-128", ⟨"db-n2-standard-128", 128, 10485760, .n2, .standard⟩),
  ("db-n2-highmem-2", ⟨"db-n2-highmem-2", 2, 327680, .n2, .highmem⟩),
  ("db-n2-highmem-4", ⟨"db-n2-highmem-4", 4, 655360, .n2, .highmem⟩),
  ("db-n2-highmem-8", ⟨"db-n2-highmem-8", 8, 1310720, .n2, .highmem⟩),
  ("db-n2-highmem-16", ⟨"db-n2-highmem-16", 16, 2621440, .n2, .highmem⟩),
  ("db-n2-highmem-32", ⟨"db-n2-highmem-32", 32, 5242880, .n2, .highmem⟩),
  ("db-n2-highmem-48", ⟨"db-n2-highmem-48", 48, 7864320, .n2, .highmem⟩),
  ("db-n2-highmem-64", ⟨"db-n2-highmem-64", 64, 10485760, .n2, .highmem⟩),
  ("db-n2-highmem-80", ⟨"db-n2-highmem-80", 80, 13107200, .n2, .highmem⟩),
  ("db-n2-highmem-96", ⟨"db-n2-highmem-96", 96, 15728640, .n2, .highmem⟩),
  ("db-n2-highmem-128", ⟨"db-n2-highmem-128", 128, 17694720, .n2, .highmem⟩),
  ("db-e2-standard-2", ⟨"db-e2-standard-2", 2, 163840, .e2, .standard⟩),
  ("db-e2-standard-4", ⟨"db-e2-standard-4", 4, 327680, .e2, .standard⟩),
  ("db-e2-standard-8", ⟨"db-e2-standard-8", 8, 655360, .e2, .standard⟩),
  ("db-e2-standard-16", ⟨"db-e2-standard-16", 16, 1310720, .e2, .standard⟩),
  ("db-e2-standard-32", ⟨"db-e2-standard-32", 32, 2621440, .e2, .standard⟩),
  ("db-e2-highmem-2", ⟨"db-e2-highmem-2", 2, 327680, .e2, .highmem⟩),
  ("db-e2-highmem-4", ⟨"db-e2-highmem-4", 4, 655360, .e2, .highmem⟩),
  ("db-e2-highmem-8", ⟨"db-e2-highmem-8", 8, 1310720, .e2, .highmem⟩),
  ("db-e2-highmem-16", ⟨"db-e2-highmem-16", 16, 2621440, .e2, .highmem⟩)]

/-- Registry lookup (`MachineTypeRegistry[name]`). -/
def registryLookup (name : String) : Option MachineType :=
  (MachineTypeRegistry.find? (fun p => p.1 == name)).map Prod.snd

/-- Leading decimal digits of a character list, as in `fmt.Sscanf(s, "%d")`
on the non-negative inputs arising here: at least one digit is required and
trailing non-digit characters are ignored. -/
def parseLeadingNat (cs : List Char) : Option Nat :=
  match cs with
  | [] => none
  | c :: _ =>
    if c.isDigit then some (go cs 0) else none
where
  go : List Char → Nat → Nat
  | [], acc => acc
  | c :: rest, acc =>
    if c.isDigit then go rest (acc * 10 + (c.toNat - 48)) else acc

/-- Split a character list on `'-'` (as `strings.Split(s, "-")`). -/
def splitOnDash (cs : List Char) : List (List Char) :=
  go cs []
where
  go : List Char → List Char → List (List Char)
  | [], acc => [acc.reverse]
  | c :: rest, acc =>
    if c = '-' then acc.reverse :: go rest [] else go rest (c :: acc)

/-- Whether `cs` starts with `pre` (as `strings.HasPrefix`). -/
def startsWithChars : List Char → List Char → Bool
  | [], _ => true
  | _ :: _, [] => false
  | p :: ps, c :: cs => p = c && startsWithChars ps cs

/-- `parseCustomMachineType`: parses names like `db-custom-4-16384`.
The float comparisons `memoryGB < cpu*0.9` / `memoryGB > cpu*6.5` are exact
at this granularity (`0.9·20480 = 18432`, `6.5·20480 = 133120`; the doubles
involved are never within rounding distance of a distinct rational on either
side), as is the 4.0 GB/vCPU tier cutoff (`4·20480 = 81920`). -/
def parseCustomMachineType (name : String) : Except MTErr MachineType :=
  let cs := name.data
  if startsWithChars "db-custom-".data cs then
    let parts := splitOnDash (cs.drop "db-custom-".data.length)
    if parts.length = 2 then
      match parseLeadingNat (parts.getD 0 []) with
      | none => .error .invalidCPUCount
      | some cpu =>
        match parseLeadingNat (parts.getD 1 []) with
        | none => .error .invalidMemorySize
        | some memoryMB =>
          if cpu < 1 ∨ cpu > 96 then .error .customCPUOutOfRange
          else
            let memU := memoryMB * 20
            if memU < 18432 * cpu ∨ memU > 133120 * cpu then
              .error .customMemoryOutOfRange
            else
              let tier : Tier := if memU > 81920 * cpu then .highmem else .standard
              .ok { name := name, cpu := cpu, memU := memU,
                    series := .custom, tier := tier }
    else .error .invalidCustomFormat
  else .error .notCustom

/-- `parsePerformanceOptimizedMachineType`: names like `db-perf-optimized-N-2`. -/
def parsePerformanceOptimizedMachineType (name : String) : Except MTErr MachineType :=
  let cs := name.data
  if startsWithChars "db-perf-optimized-".data cs then
    let suffix := cs.drop "db-perf-optimized-".data.length
    if suffix = "N-2".data then
      .ok { name := name, cpu := 2, memU := 327680, series := .perfOptimized, tier := .performance }
    else if suffix = "N-4".data then
      .ok { name := name, cpu := 4, memU := 655360, series := .perfOptimized, tier := .performance }
    else if suffix = "N-8".data then
      .ok { name := name, cpu := 8, memU := 1310720, series := .perfOptimized, tier := .performance }
    else if suffix = "N-16".data then
      .ok { name := name, cpu := 16, memU := 2621440, series := .perfOptimized, tier := .performance }
    else .error .unknownPerfOptimized
  else .error .notPerfOptimized

/-- `GetMachineType`: registry first, then custom, then performance-optimized. -/
def GetMachineType (name : String) : Except MTErr MachineType :=
  match registryLookup name with
  | some mt => .ok mt
  | none =>
    match parseCustomMachineType name with
    | .ok customMT => .ok customMT
    | .error _ =>
      match parsePerformanceOptimizedMachineType name with
      | .ok perfMT => .ok perfMT
      | .error _ => .error (.notFound name)

/-- `getNextCustomMachineType`.  Memory is handled in MB
(`currentMemoryMB = int(current.MemoryGB * 1024) = memU / 20`, exact for
custom-parsed types).  The clamp `int(minMemoryGB*1024)` computes
`int(nextCPU*0.9*1024)` in doubles, which equals `4608*nextCPU/5` rounded
toward zero for every `nextCPU ≤ 96` (the double product either lands exactly
on the integer value, when `5 ∣ nextCPU`, or is within 1e-11 of a rational
at distance ≥ 0.2 from the nearest integer); `int(maxMemoryGB*1024)` is the
exact integer `6656*nextCPU`. -/
def getNextCustomMachineType (current : MachineType) (scaleUp : Bool) : Except MTErr String :=
  let currentCPU := current.cpu
  let currentMemoryMB := current.memU / 20
  let (nextCPU, nextMemoryMB) :=
    if scaleUp then
      -- cpuUtilRatio > 4.0  ⟺  memoryMB > 4096 * cpu (exact; see module comment)
      let (n1, m1) :=
        if currentMemoryMB > 4096 * currentCPU then
          (if currentCPU < 96 then min (currentCPU + max 1 (currentCPU / 2)) 96
           else currentCPU, currentMemoryMB)
        else
          (currentCPU, currentMemoryMB + max 1024 (currentMemoryMB / 2))
      if n1 = currentCPU ∧ m1 = currentMemoryMB then
        ((if currentCPU < 96 then currentCPU + 1 else currentCPU),
         currentMemoryMB + 1024)
      else (n1, m1)
    else
      (max 1 (currentCPU - max 1 (currentCPU / 3)),
       max 1024 (currentMemoryMB - max 1024 (currentMemoryMB / 3)))
  -- clamp into the ratio band: memoryGB < nextCPU*0.9 ⟺ 10*MB < 9216*nextCPU
  let nextMemoryMB :=
    if 10 * nextMemoryMB < 9216 * nextCPU then 4608 * nextCPU / 5
    else if nextMemoryMB > 6656 * nextCPU then 6656 * nextCPU
    else nextMemoryMB
  -- round to the nearest 256 MB
  let nextMemoryMB := (nextMemoryMB + 128) / 256 * 256
  if nextCPU = currentCPU ∧ nextMemoryMB = currentMemoryMB then
    .error (if scaleUp then .atMaxCustom else .atMinCustom)
  else
    .ok ("db-custom-" ++ toString nextCPU ++ "-" ++ toString nextMemoryMB)

/-- `getNextPerformanceOptimizedType`: one step along the fixed N-2/N-4/N-8/N-16
sequence.  (The Go code recovers the current position from `current.CPU` via a
map scan whose outcome is order-independent because the CPU values are
distinct.) -/
def getNextPerformanceOptimizedType (current : MachineType) (scaleUp : Bool) :
    Except MTErr String :=
  let sequence := ["N-2", "N-4", "N-8", "N-16"]
  let currentIdx : Option Nat :=
    if current.cpu = 2 then some 0
    else if current.cpu = 4 then some 1
    else if current.cpu = 8 then some 2
    else if current.cpu = 16 then some 3
    else none
  match currentIdx with
  | none => .error .unknownPerfConfig
  | some idx =>
    if scaleUp then
      if idx + 1 ≥ sequence.length then .error .atMaxPerf
      else .ok ("db-perf-optimized-" ++ sequence.getD (idx + 1) "")
    else
      match idx with
      | 0 => .error .atMinPerf
      | i + 1 => .ok ("db-perf-optimized-" ++ sequence.getD i "")

/-- `GetNextLargerMachineType`.  The candidate scan and the selection fold are
over registry entries in source order; the Go original iterates the registry
map in unspecified order, but the selected element (the unique candidate with
minimal CPU and memory ≥ current, when it exists) does not depend on the
order, so the list model is faithful. -/
def GetNextLargerMachineType (currentType : String) : Except MTErr String :=
  match GetMachineType currentType with
  | .error e => .error e
  | .ok current =>
    if current.series = .custom then getNextCustomMachineType current true
    else if current.series = .perfOptimized then getNextPerformanceOptimizedType current true
    else
      let candidates := (MachineTypeRegistry.map Prod.snd).filter fun mt =>
        mt.series = current.series ∧ mt.tier = current.tier ∧
          (mt.cpu > current.cpu ∨ mt.memU > current.memU)
      let next := candidates.foldl
        (fun (next : Option MachineType) c =>
          match next with
          | none => some c
          | some n => if c.cpu < n.cpu ∧ c.memU ≥ current.memU then some c else next)
        none
      match next with
      | none => .error (.noLarger currentType)
      | some n => .ok n.name

/-- `GetNextSmallerMachineType`: same structure, candidates with strictly
fewer of both resources, fold keeping the largest CPU. -/
def GetNextSmallerMachineType (currentType : String) : Except MTErr String :=
  match GetMachineType currentType with
  | .error e => .error e
  | .ok current =>
    if current.series = .custom then getNextCustomMachineType current false
    else if current.series = .perfOptimized then getNextPerformanceOptimizedType current false
    else
      let candidates := (MachineTypeRegistry.map Prod.snd).filter fun mt =>
        mt.series = current.series ∧ mt.tier = current.tier ∧
          mt.cpu < current.cpu ∧ mt.memU < current.memU
      let next := candidates.foldl
        (fun (next : Option MachineType) c =>
          match next with
          | none => some c
          | some n => if c.cpu > n.cpu then some c else next)
        none
      match next with
      | none => .error (.noSmaller currentType)
      | some n => .ok n.name

/-- The next-larger selection rule as the specification states it, for
statically registered types: candidates are the registry entries of the same
series and tier with strictly more of *both* CPU and memory; among the
candidates whose memory is at least the current memory, return the one with
the smallest CPU count. -/
def nextLargerSpecRegistered (currentType : String) : Except MTErr String :=
  match GetMachineType currentType with
  | .error e => .error e
  | .ok current =>
    let candidates := (MachineTypeRegistry.map Prod.snd).filter fun mt =>
      mt.series = current.series ∧ mt.tier = current.tier ∧
        mt.cpu > current.cpu ∧ mt.memU > current.memU
    let pool := candidates.filter fun mt => mt.memU ≥ current.memU
    let best := pool.foldl
      (fun (best : Option MachineType) c =>
        match best with
        | none => some c
        | some b => if c.cpu < b.cpu then some c else best)
      none
    match best with
    | none => .error (.noLarger currentType)
    | some b => .ok b.name

/-- Bool round-trip check used to decide claim C3 over the registry. -/
def roundTripOK (name : String) : Bool :=
  match GetNextSmallerMachineType name with
  | .ok y =>
    match GetNextLargerMachineType y with
    | .ok z => z == name
    | .error _ => true
  | .error _ => true

/-! ## Scaling rules engine (`pkg/rules`, `pkg/cloudsql` decision types)

Time instants and durations are `Int` nanoseconds, matching Go's `time.Time`
(an instant) and `time.Duration` (an `int64` of nanoseconds); the zero
`time.Time` checked by `IsZero` is modelled as `none`. -/

/-- One minute as a Go `time.Duration`. -/
def minuteNs : Int := 60000000000

/-- Go `time.ParseDuration`, on the four interval literals produced by
`GetScalingConstraints` (the only strings it is applied to; its error return
is discarded by the callers). -/
def goParseDuration (s : String) : Int :=
  if s = "30m" then 30 * minuteNs
  else if s = "3h" then 180 * minuteNs
  else if s = "6h" then 360 * minuteNs
  else if s = "24h" then 1440 * minuteNs
  else 0

/-- Go `time.Duration.Round`: round to the nearest multiple of `m`, halves
away from zero (the int64 overflow branches of the stdlib implementation are
unreachable at the magnitudes used here).  Go's `%` truncates toward zero
(`Int.tmod`). -/
def goDurationRound (d m : Int) : Int :=
  if m ≤ 0 then d
  else if d < 0 then
    let r := -(Int.tmod d m)
    if r + r < m then d + r else d - (m - r)
  else
    let r := Int.tmod d m
    if r + r < m then d - r else d + (m - r)

/-- `config.Edition` is a string type in Go. -/
def EditionEnterprise : String := "ENTERPRISE"

/-- The Enterprise Plus edition string. -/
def EditionEnterprisePlus : String := "ENTERPRISE_PLUS"

/-- `config.ScalingConstraints`. -/
structure ScalingConstraints where
  minUpscaleInterval : String
  minDownscaleInterval : String
  downtimeOnScale : Bool
  deriving DecidableEq, Repr

/-- `config.GetScalingConstraints`. -/
def GetScalingConstraints (edition : String) : ScalingConstraints :=
  if edition = EditionEnterprisePlus then
    { minUpscaleInterval := "30m", minDownscaleInterval := "3h", downtimeOnScale := false }
  else if edition = EditionEnterprise then
    { minUpscaleInterval := "6h", minDownscaleInterval := "6h", downtimeOnScale := true }
  else
    { minUpscaleInterval := "24h", minDownscaleInterval := "24h", downtimeOnScale := true }

/-- The fields of `config.InstanceInfo` read by the embedded operations. -/
structure InstanceInfo where
  name : String
  machineType : String
  edition : String
  region : String
  lastScaledTime : Option Int
  deriving DecidableEq

/-- The fields of `config.MetricsSummary` read by the rules engine and the
scaling plan (`DataPoints`, `CPUP95`, `MemoryP95Pct`); the remaining fields
are presentational. -/
structure MetricsSummary where
  dataPoints : Nat
  cpuP95 : ℚ
  memoryP95Pct : ℚ
  deriving DecidableEq

/-- The `DowntimeReason` strings: either empty, the fixed Enterprise-edition
message, or the `fmt.Sprintf` carrying the constraint interval and the wait
duration rounded to the minute. -/
inductive DowntimeMsg where
  | noMsg
  | enterpriseEdition
  | waitRequired (isUpscale : Bool) (interval : String) (wait : Int)
  deriving DecidableEq, Repr

/-- The `Reason` strings produced by `Engine.AnalyzeInstance`, with the data
interpolated into each format string as payload. -/
inductive Reason where
  | noReason
  | insufficientData
  | withinTargetRange (cpuP95 memP95 : ℚ)
  | cannotScaleUp (e : MTErr)
  | cannotScaleDown (e : MTErr)
  | highUtilization (cpuP95 memP95 : ℚ)
  | lowUtilization (cpuP95 memP95 : ℚ)
  deriving DecidableEq

/-- `cloudsql.ScalingDecision` (the `Metrics` back-pointer to the input
summary is omitted; none of the modelled operations reads it). -/
structure ScalingDecision where
  shouldScale : Bool
  currentType : String
  recommendedType : String
  reason : Reason
  downtimeExpected : Bool
  downtimeReason : DowntimeMsg
  estimatedSavings : ℚ
  deriving DecidableEq

/-- The threshold fields of `config.Config` read by the rules engine. -/
structure Config where
  scaleUpThreshold : ℚ
  scaleDownThreshold : ℚ

/-- `Engine.shouldScaleUp`. -/
def shouldScaleUp (cfg : Config) (metrics : MetricsSummary) : Bool :=
  decide (metrics.cpuP95 > cfg.scaleUpThreshold * 100) ||
  decide (metrics.memoryP95Pct > cfg.scaleUpThreshold * 100)

/-- `Engine.shouldScaleDown`. -/
def shouldScaleDown (cfg : Config) (metrics : MetricsSummary) : Bool :=
  decide (metrics.cpuP95 < cfg.scaleDownThreshold * 100) &&
  decide (metrics.memoryP95Pct < cfg.scaleDownThreshold * 100)

/-- `cloudsql.EstimateCostSavings`.  Go computes the two monthly costs in
`float64`; the exact rational value is used here (`0.0475 = 19/400`,
`0.0080 = 1/125`) — no modelled claim depends on the sub-cent double-rounding
difference.  A failed `GetMachineType` leaves the zero `MachineType`, as in
the Go code, which ignores the error. -/
def EstimateCostSavings (currentType recommendedType : String) (_region : String) : ℚ :=
  let currentMT := match GetMachineType currentType with
    | .ok mt => mt | .error _ => MachineType.zero
  let recommendedMT := match GetMachineType recommendedType with
    | .ok mt => mt | .error _ => MachineType.zero
  let cpuHourlyRate : ℚ := 19 / 400
  let memoryHourlyRate : ℚ := 1 / 125
  let currentMonthlyCost :=
    ((currentMT.cpu : ℚ) * cpuHourlyRate +
      (currentMT.memU : ℚ) / 20480 * memoryHourlyRate) * 24 * 30
  let recommendedMonthlyCost :=
    ((recommendedMT.cpu : ℚ) * cpuHourlyRate +
      (recommendedMT.memU : ℚ) / 20480 * memoryHourlyRate) * 24 * 30
  currentMonthlyCost - recommendedMonthlyCost

/-- `Engine.checkDowntimeForEnterprisePlus`; `now` is the instant at which
`time.Since` is evaluated. -/
def checkDowntimeForEnterprisePlus (inst : InstanceInfo) (now : Int) (isUpscale : Bool) :
    Bool × DowntimeMsg :=
  match inst.lastScaledTime with
  | none => (false, .noMsg)
  | some lastScaled =>
    let timeSinceLastScale := now - lastScaled
    let constraints := GetScalingConstraints EditionEnterprisePlus
    if isUpscale then
      let minInterval := goParseDuration constraints.minUpscaleInterval
      if timeSinceLastScale < minInterval then
        (true, .waitRequired true constraints.minUpscaleInterval
          (goDurationRound (minInterval - timeSinceLastScale) minuteNs))
      else (false, .noMsg)
    else
      let minInterval := goParseDuration constraints.minDownscaleInterval
      if timeSinceLastScale < minInterval then
        (true, .waitRequired false constraints.minDownscaleInterval
          (goDurationRound (minInterval - timeSinceLastScale) minuteNs))
      else (false, .noMsg)

/-- The tail of `Engine.AnalyzeInstance` once a target type has been found
(source lines 72–90): mark the decision, attach the downtime flag/reason and
the estimated savings. -/
def finishScalingDecision (now : Int) (inst : InstanceInfo) (scaleUp : Bool)
    (targetType : String) (r : Reason) (base : ScalingDecision) : ScalingDecision :=
  let d := { base with reason := r, shouldScale := true, recommendedType := targetType }
  let constraints := GetScalingConstraints inst.edition
  let d :=
    if constraints.downtimeOnScale then
      { d with downtimeExpected := true, downtimeReason := .enterpriseEdition }
    else
      let p := checkDowntimeForEnterprisePlus inst now scaleUp
      { d with downtimeExpected := p.1, downtimeReason := p.2 }
  { d with estimatedSavings := EstimateCostSavings inst.machineType targetType inst.region }

/-- `Engine.AnalyzeInstance`.  The Go function's error return is always `nil`,
so only the decision is modelled. -/
def AnalyzeInstance (cfg : Config) (now : Int) (inst : InstanceInfo)
    (metrics : MetricsSummary) : ScalingDecision :=
  let base : ScalingDecision :=
    { shouldScale := false, currentType := inst.machineType, recommendedType := "",
      reason := .noReason, downtimeExpected := false, downtimeReason := .noMsg,
      estimatedSavings := 0 }
  if metrics.dataPoints < 10 then
    { base with shouldScale := false, reason := .insufficientData }
  else
    let scaleUp := shouldScaleUp cfg metrics
    let scaleDown := shouldScaleDown cfg metrics
    if !scaleUp && !scaleDown then
      { base with shouldScale := false,
                  reason := .withinTargetRange metrics.cpuP95 metrics.memoryP95Pct }
    else if scaleUp then
      match GetNextLargerMachineType inst.machineType with
      | .error e => { base with shouldScale := false, reason := .cannotScaleUp e }
      | .ok targetType =>
        finishScalingDecision now inst scaleUp targetType
          (.highUtilization metrics.cpuP95 metrics.memoryP95Pct) base
    else
      match GetNextSmallerMachineType inst.machineType with
      | .error e => { base with shouldScale := false, reason := .cannotScaleDown e }
      | .ok targetType =>
        finishScalingDecision now inst scaleUp targetType
          (.lowUtilization metrics.cpuP95 metrics.memoryP95Pct) base

/-- The two rejection messages of `Engine.ValidateScalingDecision`. -/
inductive ValidationErr where
  | downtimeNotForced (reason : DowntimeMsg)
  | sameType
  deriving DecidableEq, Repr

/-- `Engine.ValidateScalingDecision`. -/
def ValidateScalingDecision (decision : ScalingDecision) (force : Bool) :
    Option ValidationErr :=
  if !decision.shouldScale then none
  else if decision.downtimeExpected && !force then
    some (.downtimeNotForced decision.downtimeReason)
  else if decision.currentType = decision.recommendedType then some .sameType
  else none

/-! ## Project analysis results, scaling plan and the daemon apply loop
(`pkg/analyzer`, `pkg/daemon/runner.go`) -/

/-- The fields of `analyzer.AnalysisResult` read by `GenerateScalingPlan` and
`applyScalingDecisions` (instance descriptor, metrics summary, decision). -/
structure AnalysisResult where
  inst : InstanceInfo
  summary : MetricsSummary
  decision : ScalingDecision
  deriving DecidableEq

/-- `analyzer.ScalingOperation` (`inst` is the Go field `Instance`). -/
structure ScalingOperation where
  inst : String
  currentType : String
  targetType : String
  reason : Reason
  downtimeExpected : Bool
  priority : Nat
  deriving DecidableEq

/-- `ProjectAnalysisResult.GetScalableInstances`. -/
def GetScalableInstances (results : List AnalysisResult) : List AnalysisResult :=
  results.filter (fun r => r.decision.shouldScale)

/-- `calculatePriority`: +50 if either P95 exceeds 90, else +30 if either
exceeds 80; +20 if no downtime expected; +10 if estimated savings exceed 100. -/
def calculatePriority (result : AnalysisResult) : Nat :=
  (if result.summary.cpuP95 > 90 ∨ result.summary.memoryP95Pct > 90 then 50
   else if result.summary.cpuP95 > 80 ∨ result.summary.memoryP95Pct > 80 then 30
   else 0) +
  (if !result.decision.downtimeExpected then 20 else 0) +
  (if result.decision.estimatedSavings > 100 then 10 else 0)

/-- The operation `GenerateScalingPlan` builds for one scalable result. -/
def mkScalingOperation (result : AnalysisResult) : ScalingOperation :=
  { inst := result.inst.name,
    currentType := result.decision.currentType,
    targetType := result.decision.recommendedType,
    reason := result.decision.reason,
    downtimeExpected := result.decision.downtimeExpected,
    priority := calculatePriority result }

/-- The operation list `GenerateScalingPlan` assembles before sorting
(discovery order: one operation per scalable result, in result order). -/
def planOperations (results : List AnalysisResult) : List ScalingOperation :=
  (GetScalableInstances results).map mkScalingOperation

/-- The output relation of `GenerateScalingPlan`.  The Go code sorts the
operations with `sort.Slice` and the comparator
`Operations[i].Priority > Operations[j].Priority`; `sort.Slice` promises only
a permutation of its input in which no later element is greater than an
earlier one under the comparator — it is documented as not stable — so a
possible output is any comparator-sorted permutation of `planOperations`. -/
def IsGeneratedPlan (results : List AnalysisResult) (ops : List ScalingOperation) : Prop :=
  ops.Perm (planOperations results) ∧
  List.Pairwise (fun a b => b.priority ≤ a.priority) ops

/-- A scalable decision used by the concrete plan examples. -/
def exampleDecision (ct tt : String) : ScalingDecision :=
  { shouldScale := true, currentType := ct, recommendedType := tt,
    reason := .highUtilization 95 40, downtimeExpected := true,
    downtimeReason := .enterpriseEdition, estimatedSavings := 0 }

/-- Analysis result with CPU P95 = 95% (priority 50). -/
def exampleResultA : AnalysisResult :=
  ⟨⟨"instance-a", "db-n1-standard-2", "ENTERPRISE", "us-central1", none⟩,
   ⟨20, 95, 40⟩, exampleDecision "db-n1-standard-2" "db-n1-standard-4"⟩

/-- Analysis result with CPU P95 = 85% (priority 30). -/
def exampleResultB : AnalysisResult :=
  ⟨⟨"instance-b", "db-n1-standard-2", "ENTERPRISE", "us-central1", none⟩,
   ⟨20, 85, 40⟩, exampleDecision "db-n1-standard-2" "db-n1-standard-4"⟩

/-- A second result with CPU P95 = 95% (priority 50, tied with
`exampleResultA` but a different instance name). -/
def exampleResultC : AnalysisResult :=
  ⟨⟨"instance-c", "db-n1-standard-2", "ENTERPRISE", "us-central1", none⟩,
   ⟨20, 95, 40⟩, exampleDecision "db-n1-standard-2" "db-n1-standard-4"⟩

/-- `daemon.DaemonError` as produced by `WrapError` (no phase). -/
structure DaemonError where
  op : String
  err : String
  deriving DecidableEq, Repr

/-- The loop body of `autoscalingRunner.applyScalingDecisions`.  The outcome
of `analyzer.ApplyScaling` on each result is abstracted as the function
`apply`; the model returns the names attempted (in call order), the success
count, and the last error seen, mirroring `successCount` and `lastErr`. -/
def applyScalingDecisionsLoop (apply : AnalysisResult → Except String Unit) :
    List AnalysisResult → List String × Nat × Option String
  | [] => ([], 0, none)
  | r :: rest =>
    let attempt := apply r
    let st := applyScalingDecisionsLoop apply rest
    match attempt with
    | .ok _ => (r.inst.name :: st.1, st.2.1 + 1, st.2.2)
    | .error e => (r.inst.name :: st.1, st.2.1, st.2.2 <|> some e)

/-- `autoscalingRunner.applyScalingDecisions`: run the loop and wrap a final
non-nil `lastErr` as `WrapError("apply_scaling", lastErr)`. -/
def applyScalingDecisions (apply : AnalysisResult → Except String Unit)
    (instances : List AnalysisResult) : List String × Nat × Option DaemonError :=
  let st := applyScalingDecisionsLoop apply instances
  (st.1, st.2.1, st.2.2.map (fun e => ({ op := "apply_scaling", err := e } : DaemonError)))

/-! ## Metrics statistics (`calculatePercentile`, `calculateMax`) -/

/-- `sort.Float64s`: ascending sort.  As a sequence of values the sorted
result is unique whatever sorting algorithm produced it, so insertion sort is
a faithful model. -/
def sortFloat64s (values : List ℚ) : List ℚ := values.insertionSort (· ≤ ·)

/-- `calculatePercentile`.  Go's `lower := int(index)` truncates toward zero;
for the percentiles the program uses (0, 95, 99, 100) the index is
non-negative, where truncation is the floor (and for `-1 < index < 0` both
the Go truncation and `⌊·⌋.toNat` give 0). -/
def calculatePercentile (values : List ℚ) (percentile : ℚ) : ℚ :=
  if values.length = 0 then 0
  else
    let sorted := sortFloat64s values
    let index : ℚ := (percentile / 100) * ((values.length - 1 : Nat) : ℚ)
    let lower : Nat := (⌊index⌋).toNat
    let upper : Nat := lower + 1
    if upper ≥ sorted.length then sorted.getD (sorted.length - 1) 0
    else
      let weight : ℚ := index - (lower : ℚ)
      sorted.getD lower 0 * (1 - weight) + sorted.getD upper 0 * weight

/-- `calculateMax`: running maximum seeded with the first element. -/
def calculateMax (values : List ℚ) : ℚ :=
  match values with
  | [] => 0
  | v0 :: _ => values.foldl (fun m v => if v > m then v else m) v0

/-! ## Metric series alignment (`MetricsClient.GetInstanceMetrics`) -/

/-- The `config.MetricsData` payload produced by `GetInstanceMetrics`:
timestamps are integer instants, samples exact rationals. -/
structure MetricsData where
  timestamps : List Int
  cpuUtilization : List ℚ
  memoryPercent : List ℚ
  memoryUsageGB : List ℚ
  connections : List Int
  diskUsageGB : List ℚ
  diskIOPS : List ℚ

/-- Go `int(x)` on a float: truncation toward zero (used for the connection
counts). -/
def goFloatToInt (q : ℚ) : Int := if q < 0 then -(⌊-q⌋) else ⌊q⌋

/-- Alignment of one fetched metric map onto the shared timestamps: the
converted sample where the map has one, `zero` otherwise (one
`append` branch per timestamp in the Go loop).  A fetched map is an
association list keyed by timestamp. -/
def alignSeries {α : Type} (data : List (Int × ℚ)) (f : ℚ → α) (zero : α)
    (tss : List Int) : List α :=
  tss.map (fun ts =>
    match data.lookup ts with
    | some v => f v
    | none => zero)

/-- The shared timestamp axis `allTimestamps`: the key set of the CPU map,
sorted ascending with `sort.Slice` and `Before`.  Go map keys are distinct
(modelled by `dedup`), so the sorted sequence is unique and the model is
exact even though `sort.Slice` is unstable. -/
def alignedTimestamps (cpuData : List (Int × ℚ)) : List Int :=
  ((cpuData.map Prod.fst).dedup).insertionSort (· ≤ ·)

/-- The pure alignment core of `MetricsClient.GetInstanceMetrics`, given the
four fetched metric maps (CPU utilization, memory utilization, memory bytes,
connections): CPU and memory utilizations scaled to percent, memory bytes
converted to GB, connections truncated to int; a stream missing an aligned
timestamp contributes zero.  `DiskUsageGB` and `DiskIOPS` remain empty as in
the source. -/
def GetInstanceMetricsAligned (cpuData memoryData memoryBytesData connectionsData :
    List (Int × ℚ)) : MetricsData :=
  let tss := alignedTimestamps cpuData
  { timestamps := tss,
    cpuUtilization := alignSeries cpuData (fun v => v * 100) 0 tss,
    memoryPercent := alignSeries memoryData (fun v => v * 100) 0 tss,
    memoryUsageGB := alignSeries memoryBytesData (fun v => v / 1024 / 1024 / 1024) 0 tss,
    connections := alignSeries connectionsData goFloatToInt 0 tss,
    diskUsageGB := [],
    diskIOPS := [] }


/-- C1: for every statically registered machine type, `GetNextLargerMachineType`
agrees with the specification's selection rule (candidates of the same series
and tier with strictly more of both CPU and memory; among those with memory at
least the current memory, the smallest CPU count); in particular
`GetNextLargerMachineType "db-n1-standard-1" = "db-n1-standard-2"`. -/
theorem getNextLarger_matches_spec_on_registry :
    (∀ p ∈ MachineTypeRegistry,
      GetNextLargerMachineType p.1 = nextLargerSpecRegistered p.1) ∧
    GetNextLargerMachineType "db-n1-standard-1" = .ok "db-n1-standard-2" := by
  constructor
  · decide
  · decide

/-- Witness for C1: instantiation at the registered type `db-n1-standard-1`. -/
theorem getNextLarger_matches_spec_on_registry_witness :
    (("db-n1-standard-1",
      { name := "db-n1-standard-1", cpu := 1, memU := 76800,
        series := .n1, tier := .standard }) : String × MachineType) ∈ MachineTypeRegistry ∧
    GetNextLargerMachineType "db-n1-standard-1" =
      nextLargerSpecRegistered "db-n1-standard-1" :=
  ⟨by decide, getNextLarger_matches_spec_on_registry.1
    ("db-n1-standard-1",
     { name := "db-n1-standard-1", cpu := 1, memU := 76800,
       series := .n1, tier := .standard }) (by decide)⟩

/-- C3: for every statically registered machine type `x`, if
`GetNextSmallerMachineType x` succeeds with `y` and `GetNextLargerMachineType y`
succeeds with `z`, then `z = x`. -/
theorem nextSmaller_nextLarger_roundTrip :
    ∀ p ∈ MachineTypeRegistry, ∀ y z,
      GetNextSmallerMachineType p.1 = .ok y →
      GetNextLargerMachineType y = .ok z → z = p.1 := by
  intro p hp y z hy hz
  have hall : ∀ q ∈ MachineTypeRegistry, roundTripOK q.1 = true := by decide
  have h := hall p hp
  unfold roundTripOK at h
  rw [hy] at h
  dsimp only at h
  rw [hz] at h
  dsimp only at h
  exact eq_of_beq h

/-- Witness for C3: the round trip down from and back up to `db-n1-standard-2`. -/
theorem nextSmaller_nextLarger_roundTrip_witness :
    (("db-n1-standard-2",
      { name := "db-n1-standard-2", cpu := 2, memU := 153600,
        series := .n1, tier := .standard }) : String × MachineType) ∈ MachineTypeRegistry ∧
    GetNextSmallerMachineType "db-n1-standard-2" = .ok "db-n1-standard-1" ∧
    GetNextLargerMachineType "db-n1-standard-1" = .ok "db-n1-standard-2" ∧
    "db-n1-standard-2" = "db-n1-standard-2" :=
  ⟨by decide, by decide, by decide,
    nextSmaller_nextLarger_roundTrip
      ("db-n1-standard-2",
       { name := "db-n1-standard-2", cpu := 2, memU := 153600,
         series := .n1, tier := .standard }) (by decide)
      "db-n1-standard-1" "db-n1-standard-2" (by decide) (by decide)⟩

/-- C4 (code bug exhibit): `db-custom-10-9216` is a valid custom machine type
(9 GB on 10 vCPUs, exactly the 0.9 GB/vCPU minimum), scaling it down succeeds
and returns `db-custom-7-6400`, but that name encodes 6.25 GB for 7 vCPUs —
below the 0.9 GB/vCPU minimum of 6.3 GB — so `GetMachineType` rejects it: the
256 MB rounding applied *after* the band clamp pushes the memory back out of
the valid band. -/
theorem customScaleDown_escapes_ratio_band :
    GetMachineType "db-custom-10-9216" =
      .ok { name := "db-custom-10-9216", cpu := 10, memU := 184320,
            series := .custom, tier := .standard } ∧
    GetNextSmallerMachineType "db-custom-10-9216" = .ok "db-custom-7-6400" ∧
    GetMachineType "db-custom-7-6400" = .error (.notFound "db-custom-7-6400") := by
  exact ⟨by decide, by decide, by decide⟩

/-- `checkDowntimeForEnterprisePlus` on an upscale 10 minutes after the last
scaling operation: downtime flagged, 20 minutes left to wait. -/
theorem checkDowntime_upscale_after_10min (inst : InstanceInfo) (now lastScaled : Int)
    (hLast : inst.lastScaledTime = some lastScaled)
    (hElapsed : now - lastScaled = 10 * minuteNs) :
    checkDowntimeForEnterprisePlus inst now true =
      (true, .waitRequired true "30m" (20 * minuteNs)) := by
  unfold checkDowntimeForEnterprisePlus
  rw [hLast]
  simp only [GetScalingConstraints, EditionEnterprisePlus, if_pos]
  rw [hElapsed]
  norm_num [goParseDuration, goDurationRound, minuteNs, Int.tmod]

/-- C5: with fewer than 10 data points, `AnalyzeInstance` always declines to
scale with the insufficient-data reason, whatever the utilization statistics. -/
theorem analyzeInstance_insufficientData :
    ∀ (cfg : Config) (now : Int) (inst : InstanceInfo) (metrics : MetricsSummary),
      metrics.dataPoints < 10 →
      (AnalyzeInstance cfg now inst metrics).shouldScale = false ∧
      (AnalyzeInstance cfg now inst metrics).reason = .insufficientData := by
  intro cfg now inst metrics h
  unfold AnalyzeInstance
  rw [if_pos h]
  exact ⟨rfl, rfl⟩

/-- Witness for C5: 5 data points of full-load CPU still yield no scaling. -/
theorem analyzeInstance_insufficientData_witness :
    (⟨5, 99, 99⟩ : MetricsSummary).dataPoints < 10 ∧
    ((AnalyzeInstance ⟨4/5, 1/2⟩ 0
        ⟨"prod-db", "db-n1-standard-1", "ENTERPRISE", "us-central1", none⟩
        ⟨5, 99, 99⟩).shouldScale = false ∧
      (AnalyzeInstance ⟨4/5, 1/2⟩ 0
        ⟨"prod-db", "db-n1-standard-1", "ENTERPRISE", "us-central1", none⟩
        ⟨5, 99, 99⟩).reason = .insufficientData) :=
  ⟨by decide, analyzeInstance_insufficientData _ _ _ _ (by decide)⟩

/-- C6: for an Enterprise Plus instance last scaled 10 minutes before the
analysis instant, a recommended upscale decision flags downtime and reports a
remaining wait of 20 minutes against the 30-minute `MinUpscaleInterval`. -/
theorem analyzeInstance_enterprisePlus_upscale_wait :
    ∀ (cfg : Config) (now : Int) (inst : InstanceInfo) (metrics : MetricsSummary)
      (lastScaled : Int) (target : String),
      inst.edition = EditionEnterprisePlus →
      inst.lastScaledTime = some lastScaled →
      now - lastScaled = 10 * minuteNs →
      10 ≤ metrics.dataPoints →
      shouldScaleUp cfg metrics = true →
      GetNextLargerMachineType inst.machineType = .ok target →
      (AnalyzeInstance cfg now inst metrics).shouldScale = true ∧
      (AnalyzeInstance cfg now inst metrics).downtimeExpected = true ∧
      (AnalyzeInstance cfg now inst metrics).downtimeReason =
        .waitRequired true "30m" (20 * minuteNs) := by
  intro cfg now inst metrics lastScaled target hEd hLast hElapsed hDp hUp hNext
  have hnot : ¬ metrics.dataPoints < 10 := by omega
  unfold AnalyzeInstance
  rw [if_neg hnot, hUp, hNext]
  simp only [Bool.not_true, Bool.false_and, Bool.false_eq_true, if_false, if_true]
  unfold finishScalingDecision
  rw [hEd]
  simp only [GetScalingConstraints, if_pos]
  rw [checkDowntime_upscale_after_10min inst now lastScaled hLast hElapsed]
  exact ⟨rfl, rfl, rfl⟩

/-- Witness for C6: a concrete Enterprise Plus instance on `db-n1-standard-1`
at CPU P95 = 95%, last scaled 10 minutes ago. -/
theorem analyzeInstance_enterprisePlus_upscale_wait_witness :
    (⟨"prod-db", "db-n1-standard-1", "ENTERPRISE_PLUS", "us-central1",
        some 0⟩ : InstanceInfo).edition = EditionEnterprisePlus ∧
    (⟨"prod-db", "db-n1-standard-1", "ENTERPRISE_PLUS", "us-central1",
        some 0⟩ : InstanceInfo).lastScaledTime = some 0 ∧
    10 * minuteNs - 0 = 10 * minuteNs ∧
    10 ≤ (⟨20, 95, 40⟩ : MetricsSummary).dataPoints ∧
    shouldScaleUp ⟨4/5, 1/2⟩ ⟨20, 95, 40⟩ = true ∧
    GetNextLargerMachineType "db-n1-standard-1" = .ok "db-n1-standard-2" ∧
    (AnalyzeInstance ⟨4/5, 1/2⟩ (10 * minuteNs)
        ⟨"prod-db", "db-n1-standard-1", "ENTERPRISE_PLUS", "us-central1", some 0⟩
        ⟨20, 95, 40⟩).downtimeExpected = true :=
  ⟨rfl, rfl, by ring, by decide, by norm_num [shouldScaleUp], by decide,
    (analyzeInstance_enterprisePlus_upscale_wait ⟨4/5, 1/2⟩ (10 * minuteNs)
      ⟨"prod-db", "db-n1-standard-1", "ENTERPRISE_PLUS", "us-central1", some 0⟩
      ⟨20, 95, 40⟩ 0 "db-n1-standard-2" rfl rfl (by ring) (by decide)
      (by norm_num [shouldScaleUp]) (by decide)).2.1⟩

/-- C7: `ValidateScalingDecision` accepts every non-scaling decision, and
rejects a scaling decision exactly when downtime is expected without the
force override, or the recommended type equals the current one. -/
theorem validateScalingDecision_spec :
    ∀ (d : ScalingDecision) (force : Bool),
      (d.shouldScale = false → ValidateScalingDecision d force = none) ∧
      (d.shouldScale = true →
        ((ValidateScalingDecision d force ≠ none) ↔
          (d.downtimeExpected = true ∧ force = false) ∨
          d.currentType = d.recommendedType)) := by
  intro d force
  constructor
  · intro h
    simp [ValidateScalingDecision, h]
  · intro h
    rcases hd : d.downtimeExpected <;> rcases hf : force <;>
      by_cases hc : d.currentType = d.recommendedType <;>
        simp [ValidateScalingDecision, h, hd, hf, hc]

/-- Witness for C7: a scaling decision with expected downtime and no force
override is rejected. -/
theorem validateScalingDecision_spec_witness :
    (({ shouldScale := true, currentType := "db-n1-standard-1",
        recommendedType := "db-n1-standard-2", reason := .noReason,
        downtimeExpected := true, downtimeReason := .enterpriseEdition,
        estimatedSavings := 0 } : ScalingDecision).shouldScale = true) ∧
    ((ValidateScalingDecision
        { shouldScale := true, currentType := "db-n1-standard-1",
          recommendedType := "db-n1-standard-2", reason := .noReason,
          downtimeExpected := true, downtimeReason := .enterpriseEdition,
          estimatedSavings := 0 } false ≠ none) ↔
      ((true = true ∧ false = false) ∨ "db-n1-standard-1" = "db-n1-standard-2")) :=
  ⟨rfl, (validateScalingDecision_spec _ false).2 rfl⟩

/-- The last element of `a :: l` is the last of `l`, or `a` if `l` is empty. -/
theorem getLast?_cons_orElse {α : Type} (a : α) (l : List α) :
    (a :: l).getLast? = (l.getLast? <|> some a) := by
  cases l with
  | nil => simp
  | cons b m =>
    rw [List.getLast?_cons_cons]
    cases hg : (b :: m).getLast? with
    | none => simp [List.getLast?_eq_none_iff] at hg
    | some x => simp [hg]

/-- The names attempted by the apply loop are exactly the batch, in order. -/
theorem applyScalingDecisionsLoop_attempts (apply : AnalysisResult → Except String Unit)
    (instances : List AnalysisResult) :
    (applyScalingDecisionsLoop apply instances).1 =
      instances.map (fun r => r.inst.name) := by
  induction instances with
  | nil => rfl
  | cons r rest ih => cases h : apply r <;> simp [applyScalingDecisionsLoop, h, ih]

/-- The error kept by the apply loop is the last failure in the batch. -/
theorem applyScalingDecisionsLoop_lastErr (apply : AnalysisResult → Except String Unit)
    (instances : List AnalysisResult) :
    (applyScalingDecisionsLoop apply instances).2.2 =
      (instances.filterMap (fun r => match apply r with
        | .error e => some e | .ok _ => none)).getLast? := by
  induction instances with
  | nil => rfl
  | cons r rest ih =>
    cases h : apply r with
    | ok u => simp [applyScalingDecisionsLoop, h, ih]
    | error e =>
      simp only [applyScalingDecisionsLoop, h, ih, List.filterMap_cons]
      rw [getLast?_cons_orElse]

/-- C9: `applyScalingDecisions` attempts every instance of the batch in order
even when earlier instances fail, and it returns an error — wrapping the last
encountered failure as `WrapError("apply_scaling", lastErr)` — precisely when
at least one instance failed to apply. -/
theorem applyScalingDecisions_spec :
    ∀ (apply : AnalysisResult → Except String Unit) (instances : List AnalysisResult),
      (applyScalingDecisions apply instances).1 =
        instances.map (fun r => r.inst.name) ∧
      (applyScalingDecisions apply instances).2.2 =
        ((instances.filterMap (fun r => match apply r with
            | .error e => some e | .ok _ => none)).getLast?).map
          (fun e => ({ op := "apply_scaling", err := e } : DaemonError)) ∧
      ((applyScalingDecisions apply instances).2.2 = none ↔
        ∀ r ∈ instances, apply r = .ok ()) := by
  intro apply instances
  refine ⟨?_, ?_, ?_⟩
  · simp [applyScalingDecisions, applyScalingDecisionsLoop_attempts]
  · simp [applyScalingDecisions, applyScalingDecisionsLoop_lastErr]
  · rw [show (applyScalingDecisions apply instances).2.2 =
        ((instances.filterMap (fun r => match apply r with
            | .error e => some e | .ok _ => none)).getLast?).map
          (fun e => ({ op := "apply_scaling", err := e } : DaemonError)) from by
      simp [applyScalingDecisions, applyScalingDecisionsLoop_lastErr]]
    rw [Option.map_eq_none', List.getLast?_eq_none_iff, List.filterMap_eq_nil_iff]
    constructor
    · intro h r hr
      have hmatch := h r hr
      cases ha : apply r with
      | ok u => cases u; rfl
      | error e => rw [ha] at hmatch; simp at hmatch
    · intro h r hr
      rw [h r hr]

/-- Witness for C9: a batch of one instance whose apply fails is still fully
traversed. -/
theorem applyScalingDecisions_spec_witness :
    (applyScalingDecisions (fun _ => .error "update failed") [exampleResultA]).1 =
      [exampleResultA].map (fun r => r.inst.name) :=
  (applyScalingDecisions_spec (fun _ => .error "update failed") [exampleResultA]).1

/-- Priority of `exampleResultA` (CPU P95 = 95, downtime, no savings). -/
theorem calculatePriority_exampleA : calculatePriority exampleResultA = 50 := by
  norm_num [calculatePriority, exampleResultA, exampleDecision]

/-- Priority of `exampleResultB` (CPU P95 = 85, downtime, no savings). -/
theorem calculatePriority_exampleB : calculatePriority exampleResultB = 30 := by
  norm_num [calculatePriority, exampleResultB, exampleDecision]

/-- Priority of `exampleResultC` (CPU P95 = 95, downtime, no savings). -/
theorem calculatePriority_exampleC : calculatePriority exampleResultC = 50 := by
  norm_num [calculatePriority, exampleResultC, exampleDecision]

/-- C2 counterexample: with two scalable results of equal priority 50
(discovery order `A` then `C`), the reversed operation order is also a
sorted permutation — hence an admissible output of `sort.Slice`, which is
not stable — so the generated plan need not keep equal-priority operations
in discovery order. -/
theorem generateScalingPlan_tie_order_counterexample :
    IsGeneratedPlan [exampleResultA, exampleResultC]
      [mkScalingOperation exampleResultC, mkScalingOperation exampleResultA] ∧
    planOperations [exampleResultA, exampleResultC] =
      [mkScalingOperation exampleResultA, mkScalingOperation exampleResultC] ∧
    mkScalingOperation exampleResultA ≠ mkScalingOperation exampleResultC := by
  refine ⟨⟨?_, ?_⟩, rfl, ?_⟩
  · exact List.Perm.swap _ _ _
  · refine List.Pairwise.cons ?_ (List.pairwise_singleton _ _)
    intro b hb
    simp only [List.mem_singleton] at hb
    subst hb
    simp [mkScalingOperation, calculatePriority_exampleA, calculatePriority_exampleC]
  · intro h
    have := congrArg ScalingOperation.inst h
    simp [mkScalingOperation, exampleResultA, exampleResultC] at this

/-- C2 (amended): every possible output of `GenerateScalingPlan` is a
permutation of the discovery-order operations sorted by non-increasing
priority (priorities per `calculatePriority`); and when the priorities are
distinct — here `A` at 50 and `B` at 30 — that output is unique, with the
higher-priority operation first. -/
theorem generateScalingPlan_priority_order :
    (∀ (results : List AnalysisResult) (ops : List ScalingOperation),
        IsGeneratedPlan results ops →
        List.Pairwise (fun a b => b.priority ≤ a.priority) ops ∧
        ops.Perm ((GetScalableInstances results).map mkScalingOperation)) ∧
    (∀ ops, IsGeneratedPlan [exampleResultA, exampleResultB] ops →
        ops = [mkScalingOperation exampleResultA, mkScalingOperation exampleResultB]) := by
  constructor
  · intro results ops h
    exact ⟨h.2, h.1⟩
  · intro ops h
    obtain ⟨hperm, hsort⟩ := h
    have hpl : planOperations [exampleResultA, exampleResultB] =
        [mkScalingOperation exampleResultA, mkScalingOperation exampleResultB] := rfl
    rw [hpl] at hperm
    have hAp : (mkScalingOperation exampleResultA).priority = 50 := by
      simp [mkScalingOperation, calculatePriority_exampleA]
    have hBp : (mkScalingOperation exampleResultB).priority = 30 := by
      simp [mkScalingOperation, calculatePriority_exampleB]
    have hlen : ops.length = 2 := by simpa using hperm.length_eq
    obtain ⟨x, y, rfl⟩ : ∃ x y, ops = [x, y] := by
      cases ops with
      | nil => simp at hlen
      | cons x t =>
        cases t with
        | nil => simp at hlen
        | cons y u =>
          cases u with
          | nil => exact ⟨x, y, rfl⟩
          | cons z v => simp at hlen
    have hx : x ∈ [mkScalingOperation exampleResultA, mkScalingOperation exampleResultB] :=
      hperm.mem_iff.mp (by simp)
    simp only [List.mem_cons, List.mem_singleton, List.not_mem_nil, or_false] at hx
    rcases hx with hx | hx
    · subst hx
      have : [y].Perm [mkScalingOperation exampleResultB] := hperm.cons_inv
      have hy := List.perm_singleton.mp this
      simp only [List.cons.injEq, and_true] at hy
      rw [hy]
    · subst hx
      have hy : y ∈ [mkScalingOperation exampleResultA, mkScalingOperation exampleResultB] :=
        hperm.mem_iff.mp (by simp)
      simp only [List.mem_cons, List.mem_singleton, List.not_mem_nil, or_false] at hy
      rcases hy with hy | hy
      · subst hy
        have hle : (mkScalingOperation exampleResultA).priority ≤
            (mkScalingOperation exampleResultB).priority :=
          (List.pairwise_cons.mp hsort).1 _ (by simp)
        rw [hAp, hBp] at hle
        omega
      · subst hy
        have hmem : mkScalingOperation exampleResultA ∈
            [mkScalingOperation exampleResultB, mkScalingOperation exampleResultB] :=
          hperm.mem_iff.mpr (by simp)
        simp only [List.mem_cons, List.mem_singleton, List.not_mem_nil, or_false,
          or_self] at hmem
        have := congrArg ScalingOperation.priority hmem
        rw [hAp, hBp] at this
        omega

/-- Witness for C2: the discovery-order plan `[A, B]` is itself the (unique)
admissible output for the priority-50/priority-30 pair. -/
theorem generateScalingPlan_priority_order_witness :
    IsGeneratedPlan [exampleResultA, exampleResultB]
      [mkScalingOperation exampleResultA, mkScalingOperation exampleResultB] ∧
    [mkScalingOperation exampleResultA, mkScalingOperation exampleResultB] =
      [mkScalingOperation exampleResultA, mkScalingOperation exampleResultB] := by
  have hplan : IsGeneratedPlan [exampleResultA, exampleResultB]
      [mkScalingOperation exampleResultA, mkScalingOperation exampleResultB] := by
    constructor
    · exact List.Perm.refl _
    · refine List.Pairwise.cons ?_ (List.pairwise_singleton _ _)
      intro b hb
      simp only [List.mem_singleton] at hb
      subst hb
      simp [mkScalingOperation, calculatePriority_exampleA, calculatePriority_exampleB]
  exact ⟨hplan, generateScalingPlan_priority_order.2 _ hplan⟩

/-- The running maximum of `calculateMax` is the seed or a list element. -/
theorem foldl_runningMax_mem (l : List ℚ) (a : ℚ) :
    l.foldl (fun m v => if v > m then v else m) a = a ∨
    l.foldl (fun m v => if v > m then v else m) a ∈ l := by
  induction l generalizing a with
  | nil => exact Or.inl rfl
  | cons v t ih =>
    rcases ih (if v > a then v else a) with h | h
    · rw [List.foldl_cons, h]
      by_cases hv : v > a
      · rw [if_pos hv]; exact Or.inr (List.mem_cons_self _ _)
      · rw [if_neg hv]; exact Or.inl rfl
    · exact Or.inr (List.mem_cons_of_mem _ (by simpa using h))

/-- The running maximum bounds the seed and every list element from above. -/
theorem le_foldl_runningMax (l : List ℚ) (a : ℚ) :
    a ≤ l.foldl (fun m v => if v > m then v else m) a ∧
    ∀ x ∈ l, x ≤ l.foldl (fun m v => if v > m then v else m) a := by
  induction l generalizing a with
  | nil => exact ⟨le_refl a, by simp⟩
  | cons v t ih =>
    obtain ⟨hseed, hall⟩ := ih (if v > a then v else a)
    have hb : a ≤ if v > a then v else a := by
      by_cases hv : v > a
      · rw [if_pos hv]; exact le_of_lt hv
      · rw [if_neg hv]
    have hvb : v ≤ if v > a then v else a := by
      by_cases hv : v > a
      · rw [if_pos hv]
      · rw [if_neg hv]; exact le_of_not_lt hv
    refine ⟨le_trans hb hseed, ?_⟩
    intro x hx
    rcases List.mem_cons.mp hx with rfl | hx
    · exact le_trans hvb hseed
    · exact hall x hx

/-- `calculateMax` of a non-empty list is a member and an upper bound. -/
theorem calculateMax_spec (values : List ℚ) (h : values ≠ []) :
    calculateMax values ∈ values ∧ ∀ x ∈ values, x ≤ calculateMax values := by
  match values, h with
  | v0 :: rest, _ =>
    constructor
    · rcases foldl_runningMax_mem (v0 :: rest) v0 with he | he
      · rw [calculateMax, he]; exact List.mem_cons_self _ _
      · rw [calculateMax]; exact he
    · intro x hx
      exact (le_foldl_runningMax (v0 :: rest) v0).2 x hx

/-- `getD` at an in-range index is a member of the list. -/
theorem getD_mem_of_lt (l : List ℚ) (n : Nat) (h : n < l.length) :
    l.getD n 0 ∈ l := by
  rw [List.getD_eq_getElem?_getD, List.getElem?_eq_getElem h, Option.getD_some]
  exact List.getElem_mem h

/-- In a `≤`-sorted list, the entry at index `length - 1` bounds every
element from above. -/
theorem sorted_le_getD_last (s : List ℚ) (hs : List.Sorted (· ≤ ·) s) :
    ∀ x ∈ s, x ≤ s.getD (s.length - 1) 0 := by
  induction s with
  | nil => simp
  | cons a t ih =>
    intro x hx
    obtain ⟨hat, hts⟩ := List.sorted_cons.mp hs
    cases t with
    | nil => simp at hx; simp [hx]
    | cons b u =>
      rw [show (a :: b :: u).length - 1 = ((b :: u).length - 1) + 1 by simp,
        List.getD_cons_succ]
      have hlast_mem : (b :: u).getD ((b :: u).length - 1) 0 ∈ (b :: u) :=
        getD_mem_of_lt _ _ (by simp)
      rcases List.mem_cons.mp hx with rfl | hx
      · exact hat _ hlast_mem
      · exact ih hts x hx

/-- In a `≤`-sorted non-empty list, the entry at index 0 bounds every element
from below. -/
theorem sorted_getD_zero_le (s : List ℚ) (hs : List.Sorted (· ≤ ·) s) :
    ∀ x ∈ s, s.getD 0 0 ≤ x := by
  cases s with
  | nil => simp
  | cons a t =>
    intro x hx
    obtain ⟨hat, _⟩ := List.sorted_cons.mp hs
    rcases List.mem_cons.mp hx with rfl | hx
    · simp
    · simpa using hat x hx

/-- `calculatePercentile values 100` selects the last entry of the sorted
copy. -/
theorem calculatePercentile_100 (values : List ℚ) (h : values ≠ []) :
    calculatePercentile values 100 =
      (sortFloat64s values).getD ((sortFloat64s values).length - 1) 0 := by
  have hlen : values.length ≠ 0 := by simpa using fun hl => h (List.length_eq_zero.mp hl)
  unfold calculatePercentile
  rw [if_neg hlen]
  dsimp only
  have hidx : ((100 : ℚ) / 100) * ((values.length - 1 : Nat) : ℚ) =
      ((values.length - 1 : Nat) : ℚ) := by norm_num
  rw [hidx]
  have hfloor : (⌊((values.length - 1 : Nat) : ℚ)⌋).toNat = values.length - 1 := by
    rw [Int.floor_natCast, Int.toNat_natCast]
  rw [hfloor]
  have hslen : (sortFloat64s values).length = values.length :=
    (List.perm_insertionSort _ values).length_eq
  have hup : values.length - 1 + 1 ≥ (sortFloat64s values).length := by
    rw [hslen]
    omega
  rw [if_pos hup]

/-- `calculatePercentile values 0` selects the first entry of the sorted
copy. -/
theorem calculatePercentile_0 (values : List ℚ) (h : values ≠ []) :
    calculatePercentile values 0 = (sortFloat64s values).getD 0 0 := by
  have hlen : values.length ≠ 0 := by simpa using fun hl => h (List.length_eq_zero.mp hl)
  unfold calculatePercentile
  rw [if_neg hlen]
  dsimp only
  have hidx : ((0 : ℚ) / 100) * ((values.length - 1 : Nat) : ℚ) = 0 := by norm_num
  rw [hidx]
  have hfloor : (⌊(0 : ℚ)⌋).toNat = 0 := by norm_num
  rw [hfloor]
  have hslen : (sortFloat64s values).length = values.length :=
    (List.perm_insertionSort _ values).length_eq
  by_cases hone : 0 + 1 ≥ (sortFloat64s values).length
  · rw [if_pos hone]
    have : (sortFloat64s values).length = 1 := by
      rw [hslen] at hone ⊢
      omega
    rw [this]
  · rw [if_neg hone]
    push_cast
    ring

/-- C8: for every non-empty sample list, `calculatePercentile` at 100 equals
`calculateMax` (which is the greatest element), and at 0 it yields the least
element of the list. -/
theorem calculatePercentile_extrema :
    ∀ values : List ℚ, values ≠ [] →
      calculatePercentile values 100 = calculateMax values ∧
      calculateMax values ∈ values ∧
      (∀ x ∈ values, x ≤ calculateMax values) ∧
      calculatePercentile values 0 ∈ values ∧
      (∀ x ∈ values, calculatePercentile values 0 ≤ x) := by
  intro values h
  have hperm : (sortFloat64s values).Perm values := List.perm_insertionSort _ values
  have hsorted : List.Sorted (· ≤ ·) (sortFloat64s values) :=
    List.sorted_insertionSort _ values
  have hsne : sortFloat64s values ≠ [] := by
    intro hnil
    rw [hnil] at hperm
    exact h hperm.symm.eq_nil
  obtain ⟨hmax_mem, hmax_ub⟩ := calculateMax_spec values h
  have hpos : 0 < (sortFloat64s values).length := List.length_pos.mpr hsne
  have hlast_mem : (sortFloat64s values).getD ((sortFloat64s values).length - 1) 0 ∈
      sortFloat64s values := getD_mem_of_lt _ _ (by omega)
  have hzero_mem : (sortFloat64s values).getD 0 0 ∈ sortFloat64s values :=
    getD_mem_of_lt _ _ hpos
  have hlast_eq_max : (sortFloat64s values).getD ((sortFloat64s values).length - 1) 0 =
      calculateMax values := by
    apply le_antisymm
    · exact hmax_ub _ (hperm.mem_iff.mp hlast_mem)
    · exact sorted_le_getD_last _ hsorted _ (hperm.mem_iff.mpr hmax_mem)
  refine ⟨?_, hmax_mem, hmax_ub, ?_, ?_⟩
  · rw [calculatePercentile_100 values h, hlast_eq_max]
  · rw [calculatePercentile_0 values h]
    exact hperm.mem_iff.mp hzero_mem
  · intro x hx
    rw [calculatePercentile_0 values h]
    exact sorted_getD_zero_le _ hsorted x (hperm.mem_iff.mpr hx)

/-- Witness for C8: the extrema of `[3, 1, 2]`. -/
theorem calculatePercentile_extrema_witness :
    ([3, 1, 2] : List ℚ) ≠ [] ∧
    (calculatePercentile [3, 1, 2] 100 = calculateMax [3, 1, 2] ∧
      calculateMax [3, 1, 2] ∈ ([3, 1, 2] : List ℚ) ∧
      (∀ x ∈ ([3, 1, 2] : List ℚ), x ≤ calculateMax [3, 1, 2]) ∧
      calculatePercentile [3, 1, 2] 0 ∈ ([3, 1, 2] : List ℚ) ∧
      (∀ x ∈ ([3, 1, 2] : List ℚ), calculatePercentile [3, 1, 2] 0 ≤ x)) :=
  ⟨by simp, calculatePercentile_extrema [3, 1, 2] (by simp)⟩

/-- An aligned series holds `zero` wherever the source map lacks the aligned
timestamp. -/
theorem alignSeries_zero_of_missing {α : Type} (data : List (Int × ℚ)) (f : ℚ → α)
    (zero : α) (tss : List Int) (i : Nat) (h : i < tss.length)
    (hnone : data.lookup (tss.getD i 0) = none) :
    (alignSeries data f zero tss).getD i zero = zero := by
  have hlen : (alignSeries data f zero tss).length = tss.length := List.length_map _ _
  have hi : i < (alignSeries data f zero tss).length := by rw [hlen]; exact h
  rw [List.getD_eq_getElem?_getD, List.getElem?_eq_getElem hi, Option.getD_some]
  have hts : tss[i] = tss.getD i 0 := by
    rw [List.getD_eq_getElem?_getD, List.getElem?_eq_getElem h, Option.getD_some]
  simp only [alignSeries, List.getElem_map, hts, hnone]

/-- C10: in every `MetricsData` produced by the alignment core, the four
aligned sample sequences have the same length as the timestamp axis, the
timestamps are strictly ascending, and a metric stream with no sample at an
aligned timestamp contributes the value zero at that index. -/
theorem getInstanceMetrics_invariants :
    ∀ (cpuData memoryData memoryBytesData connectionsData : List (Int × ℚ)),
      (GetInstanceMetricsAligned cpuData memoryData memoryBytesData
          connectionsData).cpuUtilization.length =
        (GetInstanceMetricsAligned cpuData memoryData memoryBytesData
          connectionsData).timestamps.length ∧
      (GetInstanceMetricsAligned cpuData memoryData memoryBytesData
          connectionsData).memoryPercent.length =
        (GetInstanceMetricsAligned cpuData memoryData memoryBytesData
          connectionsData).timestamps.length ∧
      (GetInstanceMetricsAligned cpuData memoryData memoryBytesData
          connectionsData).memoryUsageGB.length =
        (GetInstanceMetricsAligned cpuData memoryData memoryBytesData
          connectionsData).timestamps.length ∧
      (GetInstanceMetricsAligned cpuData memoryData memoryBytesData
          connectionsData).connections.length =
        (GetInstanceMetricsAligned cpuData memoryData memoryBytesData
          connectionsData).timestamps.length ∧
      List.Pairwise (· < ·)
        (GetInstanceMetricsAligned cpuData memoryData memoryBytesData
          connectionsData).timestamps ∧
      (∀ i, i < (GetInstanceMetricsAligned cpuData memoryData memoryBytesData
          connectionsData).timestamps.length →
        (cpuData.lookup ((GetInstanceMetricsAligned cpuData memoryData
            memoryBytesData connectionsData).timestamps.getD i 0) = none →
          (GetInstanceMetricsAligned cpuData memoryData memoryBytesData
            connectionsData).cpuUtilization.getD i 0 = 0) ∧
        (memoryData.lookup ((GetInstanceMetricsAligned cpuData memoryData
            memoryBytesData connectionsData).timestamps.getD i 0) = none →
          (GetInstanceMetricsAligned cpuData memoryData memoryBytesData
            connectionsData).memoryPercent.getD i 0 = 0) ∧
        (memoryBytesData.lookup ((GetInstanceMetricsAligned cpuData memoryData
            memoryBytesData connectionsData).timestamps.getD i 0) = none →
          (GetInstanceMetricsAligned cpuData memoryData memoryBytesData
            connectionsData).memoryUsageGB.getD i 0 = 0) ∧
        (connectionsData.lookup ((GetInstanceMetricsAligned cpuData memoryData
            memoryBytesData connectionsData).timestamps.getD i 0) = none →
          (GetInstanceMetricsAligned cpuData memoryData memoryBytesData
            connectionsData).connections.getD i 0 = 0)) := by
  intro cpuData memoryData memoryBytesData connectionsData
  have hsorted : List.Sorted (· ≤ ·) (alignedTimestamps cpuData) :=
    List.sorted_insertionSort _ _
  have hnd : (alignedTimestamps cpuData).Nodup :=
    (List.perm_insertionSort _ _).nodup_iff.mpr (List.nodup_dedup _)
  refine ⟨List.length_map _ _, List.length_map _ _, List.length_map _ _,
    List.length_map _ _, ?_, ?_⟩
  · exact (hsorted.and hnd).imp (fun h => lt_of_le_of_ne h.1 h.2)
  · intro i hi
    exact ⟨alignSeries_zero_of_missing _ _ _ _ i hi,
      alignSeries_zero_of_missing _ _ _ _ i hi,
      alignSeries_zero_of_missing _ _ _ _ i hi,
      alignSeries_zero_of_missing _ _ _ _ i hi⟩

/-- Witness for C10: a two-point CPU series (out of order, with a duplicate)
and metric maps missing samples; the invariants instantiate at index 0. -/
theorem getInstanceMetrics_invariants_witness :
    (0 : Nat) < (GetInstanceMetricsAligned [(5, 1/2), (3, 1/4), (5, 1/2)] [] [] []).timestamps.length ∧
    (List.lookup ((GetInstanceMetricsAligned [(5, 1/2), (3, 1/4), (5, 1/2)] [] [] []).timestamps.getD 0 0)
        ([] : List (Int × ℚ)) = none →
      (GetInstanceMetricsAligned [(5, 1/2), (3, 1/4), (5, 1/2)] [] [] []).memoryPercent.getD 0 0 = 0) :=
  ⟨by decide,
    ((getInstanceMetrics_invariants [(5, 1/2), (3, 1/4), (5, 1/2)] [] [] []).2.2.2.2.2 0
      (by decide)).2.1⟩


end CloudSQLProof
